import Mathlib

/-!
Verification of the digital-signage backend's real-time core.

The definitions below are a shallow embedding of the Python source under
`src/`.  Redis pub/sub topics are modelled by the inductive `Topic`
(one constructor per distinct topic format string used by the source),
`json.dumps` payloads by the inductive `Payload` (one constructor per
distinct dict shape the source serialises), the relational device table by
`List DeviceRow`, and `HTTPException` by `HTTPError`.  Randomness
(`random.randint`) and credential generation (`secrets.token_urlsafe`) are
modelled by explicit parameters: a function embedding a handler takes the
random draws it may consume as arguments, constrained by the documented
range of the library call where relevant.
-/


/-- Redis pub/sub topics used by the source.  `codeT c` is the channel
named by the activation code `c` itself, `instructions d` is the channel
the source writes as the string `device:` ++ id ++ `:instructions`, and
`status` is the broadcast channel `devices:status`. -/
inductive Topic where
  | codeT (code : Nat)
  | instructions (deviceId : Nat)
  | status
  deriving DecidableEq

/-- Message payloads published by the source, one constructor per
`json.dumps` dict shape: activation hand-over (name and api key), a
presence transition (id and status string), the `update_setup`
instruction, and the `snapshot` instruction carrying an upload url. -/
inductive Payload where
  | activation (name apiKey : String)
  | statusMsg (deviceId : Nat) (st : String)
  | updateSetup
  | snapshot (url : String)
  deriving DecidableEq

/-- Shallow model of fastapi `HTTPException`: a status code and a detail
string. -/
structure HTTPError where
  statusCode : Nat
  detail : String
  deriving DecidableEq

/-- A row of the `device` table (src/models/device.py, class `Device`).
`lastSeen` timestamps are abstracted to a `Nat` supplied by the caller. -/
structure DeviceRow where
  id : Nat
  name : String
  location : String
  lastSeen : Nat
  api_key : String
  deriving DecidableEq

/-- Result of the activation endpoint: the HTTP response, the device table
after the request, and the list of (topic, payload) pairs the request
published. -/
structure CreateDeviceResult where
  response : Except HTTPError DeviceRow
  devices : List DeviceRow
  published : List (Topic × Payload)

/-- The api-key retry loop of `create_device` (src/routers/device.py lines
62-67): draw a key, look it up in the device table, stop at the first key
no existing device has.  The stream of draws `secrets.token_urlsafe(32)`
would produce is passed in as the list `keys`; `none` means every supplied
draw collided (the source would keep looping). -/
def findFreshKey (keys : List String) (devices : List DeviceRow) : Option String :=
  match keys with
  | [] => none
  | k :: rest =>
      if (devices.find? (fun d => d.api_key = k)).isSome then
        findFreshKey rest devices
      else
        some k

/-- Embedding of `create_device` (src/routers/device.py lines 43-82).
`numsub` gives the subscriber count `redis.pubsub_numsub` reports per
topic at the moment the request is processed, `devices` is the current
device table, `keys` the stream of api-key draws, `now` the current
timestamp and `freshId` the primary key the database would assign. -/
def create_device (code : Nat) (name loc : String) (numsub : Topic → Nat)
    (devices : List DeviceRow) (keys : List String) (now freshId : Nat) :
    Option CreateDeviceResult :=
  if numsub (Topic.codeT code) = 0 then
    some ⟨Except.error ⟨404, "No Client awaiting with the following pin: " ++ toString code⟩,
          devices, []⟩
  else if (devices.find? (fun d => d.name = name)).isSome then
    some ⟨Except.error ⟨409, "Device name " ++ name ++ " already exsist."⟩, devices, []⟩
  else
    match findFreshKey keys devices with
    | none => none
    | some k =>
        let newDevice : DeviceRow := ⟨freshId, name, loc, now, k⟩
        some ⟨Except.ok newDevice, devices ++ [newDevice],
              [(Topic.codeT code, Payload.activation name k)]⟩

/-- The counter value `redis.incr` acts on in `get_unique_activation_code`
(src/routers/code.py lines 26-39): the stored counter if the key exists,
otherwise the freshly written random seed. -/
def counterBase (counter : Option Nat) (seedMissing : Nat) : Nat :=
  counter.getD seedMissing

/-- One issuance of `get_unique_activation_code` (src/routers/code.py
lines 26-39): seed the counter if absent, increment, and if the
incremented value is `>= 999_999_999` re-seed and increment once more.
`seedMissing` and `seedOverflow` are the values the two `random.randint`
calls would draw.  The returned code is also the counter value left in
redis (both branches leave the counter at the returned value). -/
def activationStep (seedMissing seedOverflow : Nat) (counter : Option Nat) : Nat :=
  if 999999999 ≤ counterBase counter seedMissing + 1 then seedOverflow + 1
  else counterBase counter seedMissing + 1

/-- Counter state after `n` issuances starting from an absent counter;
`seeds n` are the random draws available to issuance `n`. -/
def runCounter (seeds : Nat → Nat × Nat) : Nat → Option Nat
  | 0 => none
  | n + 1 => some (activationStep (seeds n).1 (seeds n).2 (runCounter seeds n))

/-- The code returned by issuance `n`. -/
def codeAt (seeds : Nat → Nat × Nat) (n : Nat) : Nat :=
  activationStep (seeds n).1 (seeds n).2 (runCounter seeds n)

/-- Whether issuance `n` takes the overflow-reset branch. -/
def resetAt (seeds : Nat → Nat × Nat) (n : Nat) : Bool :=
  decide (999999999 ≤ counterBase (runCounter seeds n) (seeds n).1 + 1)

/-- Bounds of `random.randint(100_000_000, 900_000_000)` as called in
src/routers/code.py; Python's `randint(a, b)` is inclusive of both
endpoints. -/
def randintSeedRange (n : Nat) : Prop :=
  100000000 ≤ n ∧ n ≤ 900000000

/-- Follows the claim's words for C4: the half-open seed interval
[100_000_000, 900_000_000) the spec states, to be compared with the range
`random.randint` can actually produce. -/
def specSeedInterval (n : Nat) : Prop :=
  100000000 ≤ n ∧ n < 900000000

/-- Follows the claim's words for C4: re-seed only when the incremented
value overflows strictly past 999_999_999, to be compared with the
source's `>=` test in `activationStep`. -/
def activationStepSpec (seedMissing seedOverflow : Nat) (counter : Option Nat) : Nat :=
  if 999999999 < counterBase counter seedMissing + 1 then seedOverflow + 1
  else counterBase counter seedMissing + 1

/-- Constant random draws: every `randint` call returns 100_000_000, a
value both calls can produce. -/
def constSeeds : Nat → Nat × Nat := fun _ => (100000000, 100000000)

/-- Guard of `get_device_status_by_code` (src/routers/code.py lines
68-76): reject with 400 when the code's channel already reports a nonzero
subscriber count, before any subscription is made. -/
def codeStatusGuard (numsubCode : Nat) : Except HTTPError Unit :=
  if numsubCode ≠ 0 then
    Except.error ⟨400, "Code is not available pelas request another one"⟩
  else
    Except.ok ()

/-- Lifecycle events of the code-status stream: a request to open it, and
the stream's teardown (`pubsub.unsubscribe`). -/
inductive CodeStreamOp where
  | openStream
  | closeStream
  deriving DecidableEq

/-- Effect of a lifecycle event on the code channel's subscriber count: an
open request subscribes only when the `codeStatusGuard` condition (a
nonzero count) does not reject it, teardown unsubscribes. -/
def applyCodeStreamOp (n : Nat) (op : CodeStreamOp) : Nat :=
  match op with
  | CodeStreamOp.openStream => if n ≠ 0 then n else n + 1
  | CodeStreamOp.closeStream => n - 1

/-- Subscriber count of a code's channel after a sequence of lifecycle
events, starting from the zero count a fresh code has. -/
def runCodeStreamOps (ops : List CodeStreamOp) : Nat :=
  ops.foldl applyCodeStreamOp 0

/-- Redis `SADD` on the `online_devices` set, as called at
src/routers/device.py line 212; redis sets have set semantics, modelled by
`Finset`. -/
def sadd (s : Finset Nat) (deviceId : Nat) : Finset Nat :=
  insert deviceId s

/-- Redis `SREM` on the `online_devices` set, as called at
src/routers/device.py line 227. -/
def srem (s : Finset Nat) (deviceId : Nat) : Finset Nat :=
  s.erase deviceId

/-- Result of the snapshot-instruction endpoint: the HTTP response and the
(topic, payload) pairs it published. -/
structure SnapshotResult where
  response : Except HTTPError String
  published : List (Topic × Payload)

/-- Embedding of `send_snapshot_instruction` (src/routers/device.py lines
351-371): 404 when no device row has the id, 409 when the device's
instruction channel reports zero subscribers, otherwise one snapshot
instruction published on the device's instruction channel. -/
def send_snapshot_instruction (deviceId : Nat) (url : String)
    (devices : List DeviceRow) (numsub : Topic → Nat) : SnapshotResult :=
  match devices.find? (fun d => d.id = deviceId) with
  | none => ⟨Except.error ⟨404, "Device " ++ toString deviceId ++ " not found"⟩, []⟩
  | some device =>
      if numsub (Topic.instructions device.id) = 0 then
        ⟨Except.error ⟨409, "Device " ++ toString deviceId ++ " is offline"⟩, []⟩
      else
        ⟨Except.ok "Instruction sent successfully",
         [(Topic.instructions device.id, Payload.snapshot url)]⟩

/-- Items the two producer tasks of `get_all_devices_status`
(src/routers/device.py lines 276-291) put on the merge queue: presence
deltas from the `devices:status` subscription and heartbeats. -/
inductive QItem where
  | update (data : String)
  | heartbeat
  deriving DecidableEq

/-- Frames the admin status stream emits. -/
inductive Frame where
  | snapshotFrame (ids : List Nat)
  | updateFrame (data : String)
  | heartbeatFrame
  deriving DecidableEq

/-- The frame a queued item is emitted as. -/
def qItemFrame : QItem → Frame
  | QItem.update d => Frame.updateFrame d
  | QItem.heartbeat => Frame.heartbeatFrame

/-- Emission order of `get_all_devices_status` (src/routers/device.py
lines 293-303): the generator first yields the `smembers("online_devices")`
snapshot, then dequeues and yields the queued items in order. -/
def statusStreamFrames (onlineSnapshot : List Nat) (queued : List QItem) : List Frame :=
  Frame.snapshotFrame onlineSnapshot :: queued.map qItemFrame

/-- One iteration of the device-linking loop of `create_setup`
(src/routers/setup.py lines 167-175): on a missing id the request fails
with 404, otherwise the loop variable `device` is rebound to the found
row. -/
def linkStep (lookup : Nat → Option DeviceRow)
    (acc : Except HTTPError (Option DeviceRow)) (deviceId : Nat) :
    Except HTTPError (Option DeviceRow) :=
  match acc with
  | Except.error e => Except.error e
  | Except.ok _ =>
      match lookup deviceId with
      | none =>
          Except.error ⟨404, "Device with id " ++ toString deviceId ++ " not found"⟩
      | some d => Except.ok (some d)

/-- The device-linking loop of `create_setup`: returns the device bound by
the final iteration (the value Python's loop variable `device` holds after
the loop), or `none` for an empty list. -/
def linkDevices (deviceIds : List Nat) (lookup : Nat → Option DeviceRow) :
    Except HTTPError (Option DeviceRow) :=
  deviceIds.foldl (linkStep lookup) (Except.ok none)

/-- The notification loop of `create_setup` (src/routers/setup.py lines
180-182): one `update_setup` publish per listed id, every one addressed to
the channel of the loop variable `device` left over from the linking loop
(not the iterated `device_id`). -/
def notifyDevices (deviceIds : List Nat) (lastBound : Option DeviceRow) :
    List (Topic × Payload) :=
  match lastBound with
  | none => []
  | some device =>
      deviceIds.map (fun _ => (Topic.instructions device.id, Payload.updateSetup))

/-- The linking loop followed by the notification loop of `create_setup`:
the publications a successful setup creation performs. -/
def create_setup_notifications (deviceIds : List Nat)
    (lookup : Nat → Option DeviceRow) : Except HTTPError (List (Topic × Payload)) :=
  match linkDevices deviceIds lookup with
  | Except.error e => Except.error e
  | Except.ok lastBound => Except.ok (notifyDevices deviceIds lastBound)

/-- A concrete two-row device lookup for witness runs: ids 1 and 2
resolve, everything else is missing. -/
def lookupTwoDevices : Nat → Option DeviceRow :=
  fun i =>
    if i = 1 then some ⟨1, "A", "hq", 0, "ka"⟩
    else if i = 2 then some ⟨2, "B", "hq", 0, "kb"⟩
    else none

/-- C1: an admin registration request against a code whose channel has zero
subscribers fails with 404 and the detail naming the pin, the device table
is unchanged, and nothing is published. -/
theorem create_device_no_subscriber (code : Nat) (name loc : String)
    (numsub : Topic → Nat) (devices : List DeviceRow) (keys : List String)
    (now freshId : Nat) (hsub : numsub (Topic.codeT code) = 0) :
    create_device code name loc numsub devices keys now freshId =
      some ⟨Except.error
              ⟨404, "No Client awaiting with the following pin: " ++ toString code⟩,
            devices, []⟩ := by
  unfold create_device
  rw [hsub]
  simp

/-- The key returned by the retry loop collides with no existing device's
key. -/
theorem findFreshKey_fresh (keys : List String) (devices : List DeviceRow)
    (k : String) (h : findFreshKey keys devices = some k) :
    ∀ d ∈ devices, d.api_key ≠ k := by
  induction keys with
  | nil => simp [findFreshKey] at h
  | cons k0 rest ih =>
      by_cases hc : (devices.find? (fun d => d.api_key = k0)).isSome
      · rw [findFreshKey, if_pos hc] at h
        exact ih h
      · rw [findFreshKey, if_neg hc] at h
        have hk : k0 = k := Option.some_injective _ h
        intro d hd
        have hnone : devices.find? (fun d => d.api_key = k) = none := by
          rw [← hk]
          exact Option.not_isSome_iff_eq_none.mp hc
        have := List.find?_eq_none.mp hnone d hd
        simpa using this

/-- C2: against a code with at least one subscriber, a duplicate device
name fails with 409 creating and publishing nothing; otherwise, with the
retry loop stopping at key `k`, exactly one device row with the requested
name and key `k` is appended, exactly one activation message carrying that
name and key is published on the code's topic, and `k` collides with no
existing device's key. -/
theorem create_device_with_subscriber (code : Nat) (name loc : String)
    (numsub : Topic → Nat) (devices : List DeviceRow) (keys : List String)
    (now freshId : Nat) (hsub : numsub (Topic.codeT code) ≠ 0) :
    ((devices.find? (fun d => d.name = name)).isSome →
        create_device code name loc numsub devices keys now freshId =
          some ⟨Except.error ⟨409, "Device name " ++ name ++ " already exsist."⟩,
                devices, []⟩)
    ∧ (∀ k, devices.find? (fun d => d.name = name) = none →
        findFreshKey keys devices = some k →
        create_device code name loc numsub devices keys now freshId =
          some ⟨Except.ok ⟨freshId, name, loc, now, k⟩,
                devices ++ [⟨freshId, name, loc, now, k⟩],
                [(Topic.codeT code, Payload.activation name k)]⟩
          ∧ ∀ d ∈ devices, d.api_key ≠ k) := by
  constructor
  · intro hname
    unfold create_device
    rw [if_neg hsub, if_pos hname]
  · intro k hname hkey
    refine ⟨?_, findFreshKey_fresh keys devices k hkey⟩
    unfold create_device
    rw [if_neg hsub]
    simp [hname, hkey]

/-- Witness for C2 at concrete inputs: one existing device, first key draw
collides, second is fresh. -/
theorem create_device_with_subscriber_witness :
    create_device 123456789 "Lobby-1" "hall" (fun _ => 1)
        [⟨1, "Desk", "hq", 0, "usedkey"⟩] ["usedkey", "freshkey"] 5 2 =
      some ⟨Except.ok ⟨2, "Lobby-1", "hall", 5, "freshkey"⟩,
            [⟨1, "Desk", "hq", 0, "usedkey"⟩, ⟨2, "Lobby-1", "hall", 5, "freshkey"⟩],
            [(Topic.codeT 123456789, Payload.activation "Lobby-1" "freshkey")]⟩
      ∧ (⟨1, "Desk", "hq", 0, "usedkey"⟩ : DeviceRow).api_key ≠ "freshkey" :=
  ⟨((create_device_with_subscriber 123456789 "Lobby-1" "hall" (fun _ => 1)
      [⟨1, "Desk", "hq", 0, "usedkey"⟩] ["usedkey", "freshkey"] 5 2 (by decide)).2
      "freshkey" (by decide) (by decide)).1,
   ((create_device_with_subscriber 123456789 "Lobby-1" "hall" (fun _ => 1)
      [⟨1, "Desk", "hq", 0, "usedkey"⟩] ["usedkey", "freshkey"] 5 2 (by decide)).2
      "freshkey" (by decide) (by decide)).2 ⟨1, "Desk", "hq", 0, "usedkey"⟩ (by decide)⟩

/-- Witness for C1 at concrete inputs. -/
theorem create_device_no_subscriber_witness :
    create_device 123456789 "Lobby-1" "hall" (fun _ => 0) [] ["k1"] 0 1 =
      some ⟨Except.error
              ⟨404, "No Client awaiting with the following pin: " ++ toString 123456789⟩,
            [], []⟩ :=
  create_device_no_subscriber 123456789 "Lobby-1" "hall" (fun _ => 0) [] ["k1"] 0 1 rfl

/-- Successive issuance: the counter after issuance `n` is the code it
returned. -/
theorem runCounter_succ (seeds : Nat → Nat × Nat) (n : Nat) :
    runCounter seeds (n + 1) = some (codeAt seeds n) := rfl

/-- An issuance that does not take the reset branch returns the previous
code plus one. -/
theorem codeAt_succ_of_no_reset (seeds : Nat → Nat × Nat) (n : Nat)
    (h : resetAt seeds (n + 1) = false) :
    codeAt seeds (n + 1) = codeAt seeds n + 1 := by
  have hlt : ¬ (999999999 ≤ counterBase (runCounter seeds (n + 1)) (seeds (n + 1)).1 + 1) := by
    simpa [resetAt] using h
  show activationStep (seeds (n + 1)).1 (seeds (n + 1)).2 (runCounter seeds (n + 1)) =
    codeAt seeds n + 1
  unfold activationStep
  rw [if_neg hlt, runCounter_succ]
  simp [counterBase]

/-- C3 (amended): between two issuances none of which (after the first)
takes the wraparound-reset branch, returned codes strictly increase, so an
issued code is never returned again in a reset-free stretch. -/
theorem codeAt_strict_mono_of_no_reset (seeds : Nat → Nat × Nat) (i j : Nat)
    (hij : i < j) (hnr : ∀ k, i < k → k ≤ j → resetAt seeds k = false) :
    codeAt seeds i < codeAt seeds j := by
  induction j with
  | zero => omega
  | succ j ih =>
      rcases Nat.lt_or_ge i j with hlt | hge
      · have hstep : codeAt seeds (j + 1) = codeAt seeds j + 1 :=
          codeAt_succ_of_no_reset seeds j (hnr (j + 1) (by omega) (by omega))
        have := ih hlt (fun k hk1 hk2 => hnr k hk1 (by omega))
        omega
      · have hi : i = j := by omega
        subst hi
        have hstep : codeAt seeds (i + 1) = codeAt seeds i + 1 :=
          codeAt_succ_of_no_reset seeds i (hnr (i + 1) (by omega) (by omega))
        omega

/-- Witness for the amended C3 theorem at concrete inputs. -/
theorem codeAt_strict_mono_witness :
    codeAt (fun _ => (100000000, 100000000)) 0
      < codeAt (fun _ => (100000000, 100000000)) 1 :=
  codeAt_strict_mono_of_no_reset (fun _ => (100000000, 100000000)) 0 1 (by omega)
    (by
      intro k h1 h2
      have hk : k = 1 := by omega
      subst hk
      decide)

/-- Closed-form counter run under `constSeeds` before the wrap: after
`k + 1` issuances the counter holds `100_000_001 + k`. -/
theorem runCounter_constSeeds (k : Nat) (hk : k ≤ 899999997) :
    runCounter constSeeds (k + 1) = some (100000001 + k) := by
  induction k with
  | zero =>
      show some (activationStep 100000000 100000000 none) = some 100000001
      decide
  | succ k ih =>
      have hk' : k ≤ 899999997 := Nat.le_of_succ_le hk
      have hrec : runCounter constSeeds (k + 1 + 1) =
          some (activationStep 100000000 100000000 (runCounter constSeeds (k + 1))) := rfl
      rw [hrec, ih hk']
      have hno : ¬ (999999999 ≤ counterBase (some (100000001 + k)) 100000000 + 1) := by
        simp only [counterBase, Option.getD_some]
        omega
      unfold activationStep
      rw [if_neg hno]
      simp only [counterBase, Option.getD_some]
      congr 1

/-- C3 counterexample: under possible random draws, issuance 899_999_998
(the first after the counter reaches 999_999_998) takes the wraparound
reset and returns 100_000_001, the very code issuance 0 already returned,
even though the counter was reset rather than advanced past it. -/
theorem codeAt_wraparound_repeat :
    codeAt constSeeds 0 = 100000001
    ∧ codeAt constSeeds 899999998 = 100000001 := by
  constructor
  · decide
  · have h : runCounter constSeeds 899999998 = some 999999998 := by
      have h97 := runCounter_constSeeds 899999997 (le_refl 899999997)
      norm_num at h97
      exact h97
    unfold codeAt
    rw [h]
    decide

/-- C4 counterexample: `random.randint(100_000_000, 900_000_000)` can
return 900_000_000, which the claim's half-open interval excludes; and at
counter 999_999_998 the source resets on the incremented value
999_999_999 itself (`>=`), returning 100_000_001 where the claim's
strictly-past-999_999_999 algorithm would return 999_999_999. -/
theorem activation_seed_interval_counterexample :
    randintSeedRange 900000000
    ∧ ¬ specSeedInterval 900000000
    ∧ activationStep 100000000 100000000 (some 999999998) = 100000001
    ∧ activationStepSpec 100000000 100000000 (some 999999998) = 999999999 := by
  refine ⟨?_, ?_, by decide, by decide⟩
  · unfold randintSeedRange
    omega
  · unfold specSeedInterval
    omega

/-- C4 (amended): with both seeds in the inclusive `randint` range
[100_000_000, 900_000_000] and the counter either absent or holding a
reachable value, an issuance returns the incremented counter, re-seeding
exactly when the incremented value reaches 999_999_999 or more, and every
returned code lies in [100_000_001, 999_999_998] — in particular it is a
9-digit integer and the counter is left at a reachable value again. -/
theorem activation_step_nine_digits (seedMissing seedOverflow : Nat)
    (counter : Option Nat) (hm : randintSeedRange seedMissing)
    (ho : randintSeedRange seedOverflow)
    (hc : counter = none ∨ ∃ c, counter = some c ∧ 100000000 ≤ c ∧ c ≤ 999999998) :
    100000001 ≤ activationStep seedMissing seedOverflow counter
    ∧ activationStep seedMissing seedOverflow counter ≤ 999999998
    ∧ (999999999 ≤ counterBase counter seedMissing + 1 →
        activationStep seedMissing seedOverflow counter = seedOverflow + 1)
    ∧ (counterBase counter seedMissing + 1 < 999999999 →
        activationStep seedMissing seedOverflow counter =
          counterBase counter seedMissing + 1) := by
  obtain ⟨hm1, hm2⟩ := hm
  obtain ⟨ho1, ho2⟩ := ho
  unfold activationStep
  rcases hc with rfl | ⟨c, rfl, hc1, hc2⟩
  · simp only [counterBase, Option.getD_none]
    rw [if_neg (by omega : ¬ (999999999 ≤ seedMissing + 1))]
    exact ⟨by omega, by omega, fun h => absurd h (by omega), fun _ => rfl⟩
  · simp only [counterBase, Option.getD_some]
    by_cases h : 999999999 ≤ c + 1
    · rw [if_pos h]
      exact ⟨by omega, by omega, fun _ => rfl, fun h2 => absurd h2 (by omega)⟩
    · rw [if_neg h]
      exact ⟨by omega, by omega, fun h2 => absurd h2 (by omega), fun _ => rfl⟩

/-- Witness for the amended C4 theorem at concrete inputs. -/
theorem activation_step_nine_digits_witness :
    100000001 ≤ activationStep 100000000 900000000 none
    ∧ activationStep 100000000 900000000 none ≤ 999999998
    ∧ activationStep 100000000 900000000 none = counterBase none 100000000 + 1 :=
  ⟨(activation_step_nine_digits 100000000 900000000 none
      (by unfold randintSeedRange; omega) (by unfold randintSeedRange; omega)
      (Or.inl rfl)).1,
   (activation_step_nine_digits 100000000 900000000 none
      (by unfold randintSeedRange; omega) (by unfold randintSeedRange; omega)
      (Or.inl rfl)).2.1,
   (activation_step_nine_digits 100000000 900000000 none
      (by unfold randintSeedRange; omega) (by unfold randintSeedRange; omega)
      (Or.inl rfl)).2.2.2 (by decide)⟩

/-- C5: an open request against a code channel with a nonzero subscriber
count is rejected with 400 and subscribes nothing, and consequently the
channel of a code never holds more than one subscriber. -/
theorem code_channel_at_most_one_subscriber :
    (∀ n, n ≠ 0 →
      codeStatusGuard n =
          Except.error ⟨400, "Code is not available pelas request another one"⟩
        ∧ applyCodeStreamOp n CodeStreamOp.openStream = n)
    ∧ ∀ ops, runCodeStreamOps ops ≤ 1 := by
  constructor
  · intro n hn
    constructor
    · unfold codeStatusGuard
      rw [if_pos hn]
    · show (if n ≠ 0 then n else n + 1) = n
      rw [if_pos hn]
  · intro ops
    have key : ∀ l n, n ≤ 1 → List.foldl applyCodeStreamOp n l ≤ 1 := by
      intro l
      induction l with
      | nil => intro n h; simpa using h
      | cons op rest ih =>
          intro n h
          rw [List.foldl_cons]
          apply ih
          cases op with
          | openStream =>
              show (if n ≠ 0 then n else n + 1) ≤ 1
              by_cases hn : n ≠ 0
              · rw [if_pos hn]
                exact h
              · rw [if_neg hn]
                omega
          | closeStream =>
              show n - 1 ≤ 1
              omega
    exact key ops 0 (by omega)

/-- Witness for C5 at concrete inputs. -/
theorem code_channel_at_most_one_subscriber_witness :
    (codeStatusGuard 1 =
        Except.error ⟨400, "Code is not available pelas request another one"⟩
      ∧ applyCodeStreamOp 1 CodeStreamOp.openStream = 1)
    ∧ runCodeStreamOps [CodeStreamOp.openStream, CodeStreamOp.openStream] ≤ 1 :=
  ⟨code_channel_at_most_one_subscriber.1 1 (by decide),
   code_channel_at_most_one_subscriber.2
     [CodeStreamOp.openStream, CodeStreamOp.openStream]⟩

/-- C6: marking an already-online device online and marking an absent
device offline are no-ops on the presence registry, and after any mark
each device has at most one entry in the underlying collection. -/
theorem presence_registry_idempotent :
    (∀ (s : Finset Nat) (d : Nat), d ∈ s → sadd s d = s)
    ∧ (∀ (s : Finset Nat) (d : Nat), d ∉ s → srem s d = s)
    ∧ (∀ (s : Finset Nat) (d : Nat), Multiset.count d (sadd s d).val ≤ 1) := by
  refine ⟨?_, ?_, ?_⟩
  · intro s d h
    exact Finset.insert_eq_self.mpr h
  · intro s d h
    exact Finset.erase_eq_self.mpr h
  · intro s d
    exact Multiset.nodup_iff_count_le_one.mp (sadd s d).nodup d

/-- Witness for C6 at concrete inputs. -/
theorem presence_registry_idempotent_witness :
    sadd {1} 1 = {1} ∧ srem {1} 2 = {1} ∧ Multiset.count 1 (sadd {1} 1).val ≤ 1 :=
  ⟨presence_registry_idempotent.1 {1} 1 (by decide),
   presence_registry_idempotent.2.1 {1} 2 (by decide),
   presence_registry_idempotent.2.2 {1} 1⟩

/-- C8: a snapshot request fails with 404 for an unknown device id; for a
known device whose instruction channel has zero subscribers it fails with
409 publishing nothing; otherwise it publishes exactly one snapshot
instruction carrying the url on the device's instruction channel and
returns success. -/
theorem snapshot_instruction_cases (deviceId : Nat) (url : String)
    (devices : List DeviceRow) (numsub : Topic → Nat) :
    (devices.find? (fun d => d.id = deviceId) = none →
      send_snapshot_instruction deviceId url devices numsub =
        ⟨Except.error ⟨404, "Device " ++ toString deviceId ++ " not found"⟩, []⟩)
    ∧ (∀ device, devices.find? (fun d => d.id = deviceId) = some device →
        numsub (Topic.instructions device.id) = 0 →
        send_snapshot_instruction deviceId url devices numsub =
          ⟨Except.error ⟨409, "Device " ++ toString deviceId ++ " is offline"⟩, []⟩)
    ∧ (∀ device, devices.find? (fun d => d.id = deviceId) = some device →
        numsub (Topic.instructions device.id) ≠ 0 →
        send_snapshot_instruction deviceId url devices numsub =
          ⟨Except.ok "Instruction sent successfully",
           [(Topic.instructions device.id, Payload.snapshot url)]⟩) := by
  refine ⟨?_, ?_, ?_⟩
  · intro hfind
    unfold send_snapshot_instruction
    rw [hfind]
  · intro device hfind hnum
    unfold send_snapshot_instruction
    rw [hfind]
    simp [hnum]
  · intro device hfind hnum
    unfold send_snapshot_instruction
    rw [hfind]
    simp [hnum]

/-- Witness for C8 at concrete inputs (the success branch). -/
theorem snapshot_instruction_cases_witness :
    send_snapshot_instruction 1 "https://bucket/up"
        [⟨1, "Desk", "hq", 0, "k"⟩] (fun _ => 1) =
      ⟨Except.ok "Instruction sent successfully",
       [(Topic.instructions 1, Payload.snapshot "https://bucket/up")]⟩ :=
  (snapshot_instruction_cases 1 "https://bucket/up"
      [⟨1, "Desk", "hq", 0, "k"⟩] (fun _ => 1)).2.2
    ⟨1, "Desk", "hq", 0, "k"⟩ (by decide) (by decide)

/-- C9: the first frame the status stream emits is the one-time snapshot
of the online device-id set, and every presence-delta frame is emitted
strictly after it. -/
theorem status_stream_snapshot_first (onlineSnapshot : List Nat)
    (queued : List QItem) :
    (statusStreamFrames onlineSnapshot queued)[0]? =
      some (Frame.snapshotFrame onlineSnapshot)
    ∧ ∀ i d, (statusStreamFrames onlineSnapshot queued)[i]? =
        some (Frame.updateFrame d) → 0 < i := by
  constructor
  · simp [statusStreamFrames]
  · intro i d h
    cases i with
    | zero => simp [statusStreamFrames] at h
    | succ i => omega

/-- Witness for C9 at concrete inputs. -/
theorem status_stream_snapshot_first_witness :
    (statusStreamFrames [1, 2] [QItem.update "x"])[0]? =
      some (Frame.snapshotFrame [1, 2])
    ∧ 0 < 1 :=
  ⟨(status_stream_snapshot_first [1, 2] [QItem.update "x"]).1,
   (status_stream_snapshot_first [1, 2] [QItem.update "x"]).2 1 "x" (by decide)⟩

/-- When every listed id resolves, the linking loop leaves the device of
the last listed id bound. -/
theorem linkDevices_append_last (lookup : Nat → Option DeviceRow)
    (init : List Nat) (lastId : Nat) (dlast : DeviceRow)
    (hall : ∀ i ∈ init, (lookup i).isSome)
    (hlast : lookup lastId = some dlast) :
    linkDevices (init ++ [lastId]) lookup = Except.ok (some dlast) := by
  have key : ∀ l, (∀ i ∈ l, (lookup i).isSome) → ∀ acc : Option DeviceRow,
      List.foldl (linkStep lookup) (Except.ok acc) (l ++ [lastId]) =
        Except.ok (some dlast) := by
    intro l
    induction l with
    | nil =>
        intro _ acc
        show linkStep lookup (Except.ok acc) lastId = Except.ok (some dlast)
        unfold linkStep
        rw [hlast]
    | cons i rest ih =>
        intro hl acc
        have hi : (lookup i).isSome := hl i (List.mem_cons_self i rest)
        obtain ⟨di, hdi⟩ := Option.isSome_iff_exists.mp hi
        have hstep : linkStep lookup (Except.ok acc) i = Except.ok (some di) := by
          unfold linkStep
          rw [hdi]
        rw [List.cons_append, List.foldl_cons, hstep]
        exact ih (fun j hj => hl j (List.mem_cons_of_mem i hj)) (some di)
  exact key init hall none

/-- C10: with an empty device list `create_setup` publishes nothing; with
a non-empty list whose ids all resolve, it publishes one `update_setup`
per listed id but every publication goes to the instruction channel of the
device bound by the final linking iteration, so any device with a
different id receives none. -/
theorem create_setup_notifies_only_last_device (lookup : Nat → Option DeviceRow)
    (init : List Nat) (lastId : Nat) (dlast : DeviceRow)
    (hall : ∀ i ∈ init, (lookup i).isSome)
    (hlast : lookup lastId = some dlast) :
    create_setup_notifications [] lookup = Except.ok []
    ∧ create_setup_notifications (init ++ [lastId]) lookup =
        Except.ok ((init ++ [lastId]).map
          (fun _ => (Topic.instructions dlast.id, Payload.updateSetup)))
    ∧ (∀ pubs, create_setup_notifications (init ++ [lastId]) lookup =
          Except.ok pubs →
        pubs.length = (init ++ [lastId]).length
        ∧ ∀ otherId, otherId ≠ dlast.id →
            (Topic.instructions otherId, Payload.updateSetup) ∉ pubs) := by
  have hmain : create_setup_notifications (init ++ [lastId]) lookup =
      Except.ok ((init ++ [lastId]).map
        (fun _ => (Topic.instructions dlast.id, Payload.updateSetup))) := by
    unfold create_setup_notifications
    rw [linkDevices_append_last lookup init lastId dlast hall hlast]
    rfl
  refine ⟨rfl, hmain, ?_⟩
  intro pubs hpubs
  rw [hmain] at hpubs
  have hp : pubs = (init ++ [lastId]).map
      (fun _ => (Topic.instructions dlast.id, Payload.updateSetup)) := by
    injection hpubs with h'
    exact h'.symm
  subst hp
  constructor
  · simp
  · intro otherId hne hmem
    rw [List.mem_map] at hmem
    obtain ⟨a, _, ha⟩ := hmem
    have hfst : Topic.instructions dlast.id = Topic.instructions otherId :=
      congrArg Prod.fst ha
    injection hfst with h2
    exact hne h2.symm

/-- Witness for C10 at concrete inputs: two linked devices, both
notifications go to the channel of the second, none to the first. -/
theorem create_setup_notifies_only_last_device_witness :
    create_setup_notifications [] lookupTwoDevices = Except.ok []
    ∧ create_setup_notifications [1, 2] lookupTwoDevices =
        Except.ok [(Topic.instructions 2, Payload.updateSetup),
                   (Topic.instructions 2, Payload.updateSetup)]
    ∧ (Topic.instructions 1, Payload.updateSetup) ∉
        [(Topic.instructions 2, Payload.updateSetup),
         (Topic.instructions 2, Payload.updateSetup)] := by
  refine ⟨?_, ?_, ?_⟩
  · exact (create_setup_notifies_only_last_device lookupTwoDevices [1] 2
      ⟨2, "B", "hq", 0, "kb"⟩ (by decide) (by decide)).1
  · exact (create_setup_notifies_only_last_device lookupTwoDevices [1] 2
      ⟨2, "B", "hq", 0, "kb"⟩ (by decide) (by decide)).2.1
  · exact ((create_setup_notifies_only_last_device lookupTwoDevices [1] 2
      ⟨2, "B", "hq", 0, "kb"⟩ (by decide) (by decide)).2.2
      [(Topic.instructions 2, Payload.updateSetup),
       (Topic.instructions 2, Payload.updateSetup)]
      ((create_setup_notifies_only_last_device lookupTwoDevices [1] 2
        ⟨2, "B", "hq", 0, "kb"⟩ (by decide) (by decide)).2.1)).2 1 (by decide)

